import Mathlib

/-!
Verification of the guesser repository's core: distance and score computation,
hint-circle generation, game-type registry, and the round-release / guess-submission
state machine.  Definitions are shallow embeddings of the TypeScript source:

* `src/lib/game-types.ts` (game-type registry),
* `src/lib/countries.ts` (country registry),
* `src/lib/distance.ts` (`calculateDistance`, `calculatePixelDistance`),
* `src/lib/hint.ts` (`generateHintCircleCenter`, `getHintCircleRadius`),
* `src/app/api/games/release-round/route.ts` (`POST` = `releaseRound`),
* `src/app/api/guesses/route.ts` (`POST` = `submitGuess`).

JavaScript numbers are embedded as `ℝ` (for coordinates and distances) or as `ℚ`/`Nat`
where the values are rational configuration constants or integer counters.
`Math.random()` draws and `nanoid()` fresh ids are passed in as explicit oracles.
Database rows are Lean structures; columns never read by the modelled operations
(timestamps, localized names, legacy week/year fields) are omitted.
-/

namespace Guesser

/-! ### JavaScript primitives -/

/-- JS `Math.round`: round half toward positive infinity. -/
noncomputable def jsRound (x : ℝ) : ℤ := ⌊x + 1/2⌋

/-- JS `a || b` for an optional string argument: `undefined` and `""` are falsy. -/
def strOr (o : Option String) (d : String) : String :=
  match o with
  | some s => if s = "" then d else s
  | none => d

/-- JS `a || b` for an optional number argument: `undefined` and `0` are falsy. -/
def natOr (o : Option Nat) (d : Nat) : Nat :=
  match o with
  | some n => if n = 0 then d else n
  | none => d

/-- JS `a || null` for an optional number: `undefined` and `0` become `null`. -/
def natOrNull (o : Option Nat) : Option Nat :=
  match o with
  | some n => if n = 0 then none else some n
  | none => none

/-- JS `s.startsWith(pre)` (over the character list, so that it evaluates in the
kernel). -/
def strStartsWith (s pre : String) : Bool :=
  pre.data.isPrefixOf s.data

/-- JS `s.split(":")[1]`: the second `:`-separated segment, `none` when absent. -/
def splitSecond (s : String) : Option String :=
  match s.data.dropWhile (fun c => !(c == ':')) with
  | [] => none
  | _ :: rest => some ⟨rest.takeWhile (fun c => !(c == ':'))⟩

/-- Helper for `jsReplaceEmpty`: remove the first occurrence of `pat` in a
character list. -/
def removeSubOnce (pat : List Char) : List Char → List Char
  | [] => []
  | c :: cs =>
    if pat.isPrefixOf (c :: cs) then (c :: cs).drop pat.length
    else c :: removeSubOnce pat cs

/-- JS `s.replace(pat, "")`: remove the first occurrence of the plain-string
pattern `pat`, leaving `s` unchanged when `pat` does not occur. -/
def jsReplaceEmpty (s pat : String) : String :=
  ⟨removeSubOnce pat.data s.data⟩

/-- JS `Math.atan2`, restricted to the real plane (embedding of the float builtin). -/
noncomputable def jsAtan2 (y x : ℝ) : ℝ :=
  if 0 < x then Real.arctan (y / x)
  else if x < 0 then
    (if 0 ≤ y then Real.arctan (y / x) + Real.pi else Real.arctan (y / x) - Real.pi)
  else
    (if 0 < y then Real.pi / 2 else if y < 0 then -(Real.pi / 2) else 0)

/-! ### `src/lib/countries.ts` -/

structure CountryBounds where
  southWestLat : ℚ
  southWestLng : ℚ
  northEastLat : ℚ
  northEastLng : ℚ
  centerLat : ℚ
  centerLng : ℚ
  deriving DecidableEq, Repr

structure CountryConfig where
  code : String
  nameDe : String
  nameEn : String
  nameSl : String
  bounds : CountryBounds
  geoJsonFile : String
  timeoutPenalty : ℚ
  deriving DecidableEq, Repr

def switzerlandCountry : CountryConfig :=
  { code := "CH", nameDe := "Schweiz", nameEn := "Switzerland", nameSl := "Švica"
    bounds := { southWestLat := 45.8, southWestLng := 5.9
                northEastLat := 47.8, northEastLng := 10.5
                centerLat := 46.8, centerLng := 8.2 }
    geoJsonFile := "/switzerland.geojson", timeoutPenalty := 400 }

def sloveniaCountry : CountryConfig :=
  { code := "SI", nameDe := "Slowenien", nameEn := "Slovenia", nameSl := "Slovenija"
    bounds := { southWestLat := 45.4, southWestLng := 13.4
                northEastLat := 46.9, northEastLng := 16.6
                centerLat := 46.1, centerLng := 15.0 }
    geoJsonFile := "/slovenia.geojson", timeoutPenalty := 250 }

def COUNTRIES : List (String × CountryConfig) :=
  [("switzerland", switzerlandCountry), ("slovenia", sloveniaCountry)]

def DEFAULT_COUNTRY : String := "switzerland"

def getCountryConfig (countryKey : String) : CountryConfig :=
  match COUNTRIES.find? (fun p => p.1 == countryKey) with
  | some p => p.2
  | none => switzerlandCountry

def getCountryBounds (countryKey : String) : CountryBounds :=
  (getCountryConfig countryKey).bounds

def getTimeoutPenalty (countryKey : String) : ℚ :=
  (getCountryConfig countryKey).timeoutPenalty

def getLocationCountryName (countryKey : String) : String :=
  (getCountryConfig countryKey).nameEn

/-! ### `src/lib/game-types.ts` -/

inductive GTType where
  | country
  | world
  | image
  deriving DecidableEq, Repr

structure GameTypeConfig where
  id : String
  type : GTType
  nameDe : String
  nameEn : String
  nameSl : String
  icon : String
  geoJsonFile : String
  bounds : Option CountryBounds
  timeoutPenalty : ℚ
  scoreScaleFactor : ℚ
  defaultZoom : ℤ
  minZoom : ℤ
  defaultCenterLat : ℚ
  defaultCenterLng : ℚ
  imageUrl : Option String := none
  silhouetteUrl : Option String := none
  deriving DecidableEq, Repr

def gtSwitzerland : GameTypeConfig :=
  { id := "country:switzerland", type := .country
    nameDe := "Schweiz", nameEn := "Switzerland", nameSl := "Švica", icon := "🇨🇭"
    geoJsonFile := "/switzerland.geojson", bounds := some switzerlandCountry.bounds
    timeoutPenalty := 400, scoreScaleFactor := 100
    defaultZoom := 8, minZoom := 7
    defaultCenterLat := switzerlandCountry.bounds.centerLat
    defaultCenterLng := switzerlandCountry.bounds.centerLng }

def gtSlovenia : GameTypeConfig :=
  { id := "country:slovenia", type := .country
    nameDe := "Slowenien", nameEn := "Slovenia", nameSl := "Slovenija", icon := "🇸🇮"
    geoJsonFile := "/slovenia.geojson", bounds := some sloveniaCountry.bounds
    timeoutPenalty := 250, scoreScaleFactor := 60
    defaultZoom := 8, minZoom := 7
    defaultCenterLat := sloveniaCountry.bounds.centerLat
    defaultCenterLng := sloveniaCountry.bounds.centerLng }

def gtWorld (id nameDe nameEn nameSl icon : String) : GameTypeConfig :=
  { id := id, type := .world
    nameDe := nameDe, nameEn := nameEn, nameSl := nameSl, icon := icon
    geoJsonFile := "/world.geojson", bounds := none
    timeoutPenalty := 5000, scoreScaleFactor := 3000
    defaultZoom := 2, minZoom := 1
    defaultCenterLat := 20, defaultCenterLng := 0 }

def gtGarten : GameTypeConfig :=
  { id := "image:garten", type := .image
    nameDe := "Garten", nameEn := "Garden", nameSl := "Vrt", icon := "🏡"
    geoJsonFile := "", bounds := none
    timeoutPenalty := 0.350, scoreScaleFactor := 0.035
    defaultZoom := -1, minZoom := -3
    defaultCenterLat := 1114.5, defaultCenterLng := 1165
    imageUrl := some "/images/maps/garten.jpg"
    silhouetteUrl := some "/images/maps/garten-silhouette.jpg" }

def GAME_TYPES : List (String × GameTypeConfig) :=
  [ ("country:switzerland", gtSwitzerland)
  , ("country:slovenia", gtSlovenia)
  , ("world:highest-mountains",
      gtWorld "world:highest-mountains" "Höchste Berge" "Highest Mountains" "Najvišje gore" "🏔️")
  , ("world:capitals", gtWorld "world:capitals" "Hauptstädte" "World Capitals" "Prestolnice" "🏛️")
  , ("world:famous-places",
      gtWorld "world:famous-places" "Berühmte Orte" "Famous Places" "Znamenite lokacije" "🗺️")
  , ("world:unesco",
      gtWorld "world:unesco" "UNESCO Welterbe" "UNESCO World Heritage" "UNESCO svetovna dediščina" "🏛️")
  , ("world:airports",
      gtWorld "world:airports" "Internationale Flughäfen" "International Airports" "Mednarodna letališča" "✈️")
  , ("image:garten", gtGarten) ]

def DEFAULT_GAME_TYPE : String := "country:switzerland"

/-- The lookup `GAME_TYPES[gameTypeId] || GAME_TYPES[DEFAULT_GAME_TYPE]`. -/
def getGameTypeConfig (gameTypeId : String) : GameTypeConfig :=
  match GAME_TYPES.find? (fun p => p.1 == gameTypeId) with
  | some p => p.2
  | none => gtSwitzerland

def getGameTypeFromCountry (country : String) : String :=
  "country:" ++ country

def isWorldGameType (gameTypeId : Option String) : Bool :=
  match gameTypeId with
  | none => false
  | some id => strStartsWith id "world:"

def getWorldCategory (gameTypeId : String) : Option String :=
  if isWorldGameType (some gameTypeId) then splitSecond gameTypeId else none

def isImageGameType (gameTypeId : Option String) : Bool :=
  match gameTypeId with
  | none => false
  | some id => strStartsWith id "image:"

def getImageMapId (gameTypeId : String) : Option String :=
  if isImageGameType (some gameTypeId) then splitSecond gameTypeId else none

/-! ### `src/lib/distance.ts` -/

/-- The function `calculateDistance(lat1, lon1, lat2, lon2)`: haversine distance in km,
rounded to 1 decimal place (Earth radius 6371 km). -/
noncomputable def calculateDistance (lat1 lon1 lat2 lon2 : ℝ) : ℝ :=
  let R : ℝ := 6371
  let dLat := (lat2 - lat1) * Real.pi / 180
  let dLon := (lon2 - lon1) * Real.pi / 180
  let a :=
    Real.sin (dLat / 2) * Real.sin (dLat / 2) +
      Real.cos (lat1 * Real.pi / 180) * Real.cos (lat2 * Real.pi / 180) *
        Real.sin (dLon / 2) * Real.sin (dLon / 2)
  let c := 2 * jsAtan2 (Real.sqrt a) (Real.sqrt (1 - a))
  (jsRound (R * c * 10) : ℝ) / 10

/-- The function `calculatePixelDistance(x1, y1, x2, y2)`: Euclidean pixel distance at
92 px = 10 m, rounded to the nearest meter, returned in km. -/
noncomputable def calculatePixelDistance (x1 y1 x2 y2 : ℝ) : ℝ :=
  let pixelDistance := Real.sqrt ((x2 - x1) ^ 2 + (y2 - y1) ^ 2)
  let metersPerPixel : ℝ := 10 / 92
  let distanceMeters := pixelDistance * metersPerPixel
  (jsRound distanceMeters : ℝ) / 1000

/-! ### `src/lib/score.ts` (not part of the corpus) -/

/-- Modelled from the spec: `src/lib/score.ts` is missing from the corpus (only its
callers are present).  Per the spec, `calculateScore(distance, gameTypeId)` looks up
`scoreScaleFactor` for the resolved game type and applies
`score = round(100 * e^(-distance/scaleFactor))`, clamped to `[0,100]`. -/
noncomputable def calculateScore (distanceKm : ℝ) (gameTypeId : String) : ℤ :=
  let scaleFactor : ℝ := ((getGameTypeConfig gameTypeId).scoreScaleFactor : ℝ)
  max 0 (min 100 (jsRound (100 * Real.exp (-(distanceKm / scaleFactor)))))

/-! ### `src/lib/hint.ts` -/

def EARTH_RADIUS_KM : ℝ := 6371

def KM_PER_DEGREE_LAT : ℝ := 111

def KM_PER_DEGREE_LNG : ℝ := 75

/-- Forward geodesic projection: point at `distanceKm` along `bearingDegrees`. -/
noncomputable def calculateDestination (lat lng distanceKm bearingDegrees : ℝ) : ℝ × ℝ :=
  let lat1 := lat * Real.pi / 180
  let lng1 := lng * Real.pi / 180
  let bearing := bearingDegrees * Real.pi / 180
  let angularDistance := distanceKm / EARTH_RADIUS_KM
  let lat2 := Real.arcsin
    (Real.sin lat1 * Real.cos angularDistance +
      Real.cos lat1 * Real.sin angularDistance * Real.cos bearing)
  let lng2 := lng1 + jsAtan2
    (Real.sin bearing * Real.sin angularDistance * Real.cos lat1)
    (Real.cos angularDistance - Real.sin lat1 * Real.sin lat2)
  (lat2 * 180 / Real.pi, lng2 * 180 / Real.pi)

/-- Bounds for a game type; world maps (bounds = null) use full world bounds. -/
def getBoundsForGameType (gameType : String) : CountryBounds :=
  match (getGameTypeConfig gameType).bounds with
  | some b => b
  | none =>
      { southWestLat := -85, southWestLng := -180
        northEastLat := 85, northEastLng := 180
        centerLat := 0, centerLng := 0 }

open Classical in
/-- Whether the circle `center ± radiusKm` stays within the game type bounds. -/
noncomputable def isCircleWithinBounds (centerLat centerLng radiusKm : ℝ)
    (gameType : String) : Prop :=
  let bounds := getBoundsForGameType gameType
  let radiusLat := radiusKm / KM_PER_DEGREE_LAT
  let radiusLng := radiusKm / KM_PER_DEGREE_LNG
  let northEdge := centerLat + radiusLat
  let southEdge := centerLat - radiusLat
  let eastEdge := centerLng + radiusLng
  let westEdge := centerLng - radiusLng
  southEdge ≥ (bounds.southWestLat : ℝ) ∧ northEdge ≤ (bounds.northEastLat : ℝ) ∧
    westEdge ≥ (bounds.southWestLng : ℝ) ∧ eastEdge ≤ (bounds.northEastLng : ℝ)

open Classical in
/-- Candidate bearings (N, NE, ..., NW) sorted by available space, best first.
The JS `Array.prototype.sort` with comparator `b.space - a.space` is a stable
sort by descending space. -/
noncomputable def getBestBearings (targetLat targetLng : ℝ) (gameType : String) :
    List ℝ :=
  let bounds := getBoundsForGameType gameType
  let distToNorth := ((bounds.northEastLat : ℝ) - targetLat) * KM_PER_DEGREE_LAT
  let distToSouth := (targetLat - (bounds.southWestLat : ℝ)) * KM_PER_DEGREE_LAT
  let distToEast := ((bounds.northEastLng : ℝ) - targetLng) * KM_PER_DEGREE_LNG
  let distToWest := (targetLng - (bounds.southWestLng : ℝ)) * KM_PER_DEGREE_LNG
  let directions : List (ℝ × ℝ) :=
    [ (0, distToNorth)
    , (45, min distToNorth distToEast)
    , (90, distToEast)
    , (135, min distToSouth distToEast)
    , (180, distToSouth)
    , (225, min distToSouth distToWest)
    , (270, distToWest)
    , (315, min distToNorth distToWest) ]
  (directions.mergeSort (fun a b => decide (b.2 ≤ a.2))).map Prod.fst

/-- The buffer `minBuffer = Math.max(5, radiusKm * 0.08)` from `generateHintCircleCenter`. -/
def hintMinBuffer (radiusKm : ℝ) : ℝ := max 5 (radiusKm * 0.08)

/-- The placement distance `minDistance + r * (maxDistance - minDistance)` at which
`generateHintCircleCenter` projects the circle center away from the target, for a
`Math.random()` draw `r`. -/
def hintPlacementDistance (radiusKm r : ℝ) : ℝ :=
  let minBuffer := hintMinBuffer radiusKm
  let minDistance := minBuffer
  let maxDistance := radiusKm - minBuffer
  minDistance + r * (maxDistance - minDistance)

open Classical in
/-- The candidate loop of `generateHintCircleCenter`: try each bearing (best first),
perturb it by `±30°`, place the center at a random distance, and accept the first
candidate circle that stays within bounds.  `rnd` is the `Math.random()` oracle and
`k` the index of the next draw (each iteration consumes two draws). -/
noncomputable def hintLoop (targetLat targetLng radiusKm : ℝ) (gameType : String)
    (rnd : Nat → ℝ) : List ℝ → Nat → Option (ℝ × ℝ)
  | [], _ => none
  | baseBearing :: rest, k =>
    let bearing := baseBearing + (rnd k * 60 - 30)
    let distance := hintPlacementDistance radiusKm (rnd (k + 1))
    let center := calculateDestination targetLat targetLng distance bearing
    if isCircleWithinBounds center.1 center.2 radiusKm gameType then some center
    else hintLoop targetLat targetLng radiusKm gameType rnd rest (k + 2)

/-- The function `generateHintCircleCenter(targetLat, targetLng, radiusKm, gameType)` with the
`Math.random()` sequence passed as the oracle `rnd`. -/
noncomputable def generateHintCircleCenter (targetLat targetLng radiusKm : ℝ)
    (gameType : String) (rnd : Nat → ℝ) : ℝ × ℝ :=
  let bestBearings := getBestBearings targetLat targetLng gameType
  match hintLoop targetLat targetLng radiusKm gameType rnd bestBearings 0 with
  | some center => center
  | none =>
    let k := 2 * bestBearings.length
    let bestBearing := bestBearings.headD 0 + (rnd k * 60 - 30)
    let distance := hintPlacementDistance radiusKm (rnd (k + 1))
    calculateDestination targetLat targetLng distance bestBearing

def HINT_CIRCLE_RADIUS_KM : ℝ := 60

/-- The function `getHintCircleRadius(gameType)`: world maps get a fixed 3000 km radius, all
other game types get `0.6 * scoreScaleFactor`. -/
def getHintCircleRadius (gameType : String) : ℝ :=
  let config := getGameTypeConfig gameType
  if config.type = .world then 3000
  else (config.scoreScaleFactor : ℝ) * 0.6

/-! ### Database rows (`src/lib/db/schema.ts`) -/

structure Game where
  id : String
  groupId : Option String
  userId : Option String
  mode : String
  name : Option String := none
  country : String
  gameType : Option String
  locationsPerRound : Nat
  timeLimitSeconds : Option Nat := none
  status : String := "active"
  currentRound : Nat
  leaderboardRevealed : Bool := false
  deriving DecidableEq, Repr

structure LocationRow where
  id : String
  name : String
  latitude : ℝ
  longitude : ℝ
  country : String

structure WorldLocationRow where
  id : String
  category : String
  name : String
  latitude : ℝ
  longitude : ℝ

structure ImageLocationRow where
  id : String
  imageMapId : String
  name : String
  x : ℝ
  y : ℝ

structure GameRound where
  id : String
  gameId : String
  roundNumber : Nat
  locationIndex : Nat
  locationId : String
  locationSource : String
  country : String
  gameType : Option String
  timeLimitSeconds : Option Nat := none
  deriving DecidableEq, Repr

structure Guess where
  id : String
  gameRoundId : String
  userId : String
  latitude : Option ℝ
  longitude : Option ℝ
  distanceKm : ℝ
  timeSeconds : Option Nat := none

structure GroupMember where
  groupId : String
  userId : String
  role : String
  deriving DecidableEq, Repr

/-- The slice of the database read and written by the modelled routes. -/
structure DB where
  games : List Game
  groupMembers : List GroupMember
  locations : List LocationRow
  worldLocations : List WorldLocationRow
  imageLocations : List ImageLocationRow
  gameRounds : List GameRound
  guesses : List Guess

/-! ### `src/app/api/games/release-round/route.ts` (`POST`) -/

inductive ReleaseResult where
  | unauthorized
  | gameIdRequired
  | gameNotFound
  | invalidGameState
  | onlyAdminsCanRelease
  | onlyOwnGames
  /-- HTTP 400 with the message reporting required vs available counts. -/
  | insufficientLocations (required available : Nat)
  /-- The success payload `{ currentRound, locationsInRound, gameType }`. -/
  | released (currentRound locationsInRound : Nat) (gameType : String)
  deriving DecidableEq, Repr

structure ReleaseRequest where
  gameId : String
  gameType : Option String := none
  locationsPerRound : Option Nat := none
  timePerRound : Option Nat := none
  deriving DecidableEq, Repr

/-- A location candidate as mapped into `availableLocations` (image maps store
`y`/`x` in `latitude`/`longitude`, Leaflet `CRS.Simple` convention). -/
structure SelLoc where
  id : String
  name : String
  latitude : ℝ
  longitude : ℝ

/-- The resolution `getEffectiveGameType(game)`: `game.gameType || "country:" + game.country`. -/
def getEffectiveGameType (game : Game) : String :=
  strOr game.gameType (getGameTypeFromCountry game.country)

/-- The `usedLocationIds` set: `locationId` of every `GameRound` of this game. -/
def usedLocationIds (db : DB) (gameId : String) : List String :=
  (db.gameRounds.filter (fun r => r.gameId == gameId)).map (fun r => r.locationId)

/-- The authorization check of the release route: group games require the caller
to be a group admin, solo/training games require ownership. -/
def releaseAuthError (db : DB) (userId : String) (game : Game) :
    Option ReleaseResult :=
  if game.mode = "group" then
    match game.groupId with
    | none => some .invalidGameState
    | some gid =>
      match db.groupMembers.find? (fun m => m.groupId == gid && m.userId == userId) with
      | some m => if m.role ≠ "admin" then some .onlyAdminsCanRelease else none
      | none => some .onlyAdminsCanRelease
  else
    if game.userId ≠ some userId then some .onlyOwnGames else none

/-- Resolution of the candidate pool: `(availableLocations, roundCountry,
locationSource)` for the effective game type, filtered by `usedLocationIds`. -/
def poolSelection (db : DB) (effectiveGameType : String)
    (used : List String) : List SelLoc × String × String :=
  if isImageGameType (some effectiveGameType) then
    let imageMapId := getImageMapId effectiveGameType
    let avail : List SelLoc :=
      match imageMapId with
      | some mid =>
        if mid = "" then []
        else
          ((db.imageLocations.filter (fun l => l.imageMapId == mid)).filter
              (fun l => !(used.contains l.id))).map
            (fun l => { id := l.id, name := l.name, latitude := l.y, longitude := l.x })
      | none => []
    let roundCountry :=
      match imageMapId with
      | some mid => if mid = "" then "image" else mid
      | none => "image"
    (avail, roundCountry, "imageLocations")
  else if isWorldGameType (some effectiveGameType) then
    let category := getWorldCategory effectiveGameType
    let avail : List SelLoc :=
      match category with
      | some cat =>
        if cat = "" then []
        else
          ((db.worldLocations.filter (fun l => l.category == cat)).filter
              (fun l => !(used.contains l.id))).map
            (fun l =>
              { id := l.id, name := l.name, latitude := l.latitude, longitude := l.longitude })
      | none => []
    (avail, "world", "worldLocations")
  else
    let roundCountry := jsReplaceEmpty effectiveGameType "country:"
    let countryName := getLocationCountryName roundCountry
    let avail : List SelLoc :=
      ((db.locations.filter (fun l => l.country == countryName)).filter
          (fun l => !(used.contains l.id))).map
        (fun l =>
          { id := l.id, name := l.name, latitude := l.latitude, longitude := l.longitude })
    (avail, roundCountry, "locations")

/-- The route `POST /api/games/release-round`.  `session` is the authenticated user id,
`shuffle` the random permutation produced by `sort(() => Math.random() - 0.5)`,
and `freshId` the `nanoid()` oracle.  Returns the response and the new database
state. -/
def releaseRound (db : DB) (session : Option String) (req : ReleaseRequest)
    (shuffle : List SelLoc → List SelLoc) (freshId : Nat → String) :
    ReleaseResult × DB :=
  match session with
  | none => (.unauthorized, db)
  | some userId =>
    if req.gameId = "" then (.gameIdRequired, db)
    else
      match db.games.find? (fun g => g.id == req.gameId) with
      | none => (.gameNotFound, db)
      | some game =>
        match releaseAuthError db userId game with
        | some e => (e, db)
        | none =>
          let effectiveGameType := strOr req.gameType (getEffectiveGameType game)
          let effectiveLocationsPerRound := natOr req.locationsPerRound game.locationsPerRound
          let used := usedLocationIds db req.gameId
          let sel := poolSelection db effectiveGameType used
          let availableLocations := sel.1
          let roundCountry := sel.2.1
          let locationSource := sel.2.2
          if availableLocations.length < effectiveLocationsPerRound then
            (.insufficientLocations effectiveLocationsPerRound availableLocations.length, db)
          else
            let selectedLocations := (shuffle availableLocations).take effectiveLocationsPerRound
            let newRoundNumber := game.currentRound + 1
            let gameRoundsToInsert := selectedLocations.enum.map (fun p =>
              { id := freshId p.1
                gameId := req.gameId
                roundNumber := newRoundNumber
                locationIndex := p.1 + 1
                locationId := p.2.id
                locationSource := locationSource
                country := roundCountry
                gameType := some effectiveGameType
                timeLimitSeconds := natOrNull req.timePerRound : GameRound })
            let db' : DB :=
              { db with
                gameRounds := db.gameRounds ++ gameRoundsToInsert
                games := db.games.map (fun g =>
                  if g.id == req.gameId then
                    { g with currentRound := newRoundNumber, leaderboardRevealed := false }
                  else g) }
            (.released newRoundNumber effectiveLocationsPerRound effectiveGameType, db')

/-! ### `src/app/api/guesses/route.ts` (`POST`) -/

inductive GuessResult where
  | unauthorized
  | roundNotFound
  /-- HTTP 403 "Diese Runde ist noch nicht freigegeben". -/
  | roundNotReleased
  | invalidGameState
  | notAMember
  | notAuthorized
  /-- HTTP 400 "Already guessed this round". -/
  | alreadyGuessed
  | locationNotFound
  /-- The success payload. -/
  | ok (id : String) (distanceKm : ℝ) (score : ℤ) (gameType : String)
      (targetLatitude targetLongitude : ℝ)

/-- Whether a `GuessResult` is the success case. -/
def GuessResult.isOk : GuessResult → Bool
  | .ok _ _ _ _ _ _ => true
  | _ => false

/-- Whether a `GuessResult` is the `alreadyGuessed` rejection. -/
def GuessResult.isAlreadyGuessed : GuessResult → Bool
  | .alreadyGuessed => true
  | _ => false

structure GuessRequest where
  gameRoundId : String
  latitude : ℝ
  longitude : ℝ
  timeSeconds : Option Nat := none
  timeout : Bool := false

/-- The authorization check of the guess route: group games require membership,
solo/training games require ownership. -/
def guessAuthError (db : DB) (userId : String) (game : Game) : Option GuessResult :=
  if game.mode = "group" then
    match game.groupId with
    | none => some .invalidGameState
    | some gid =>
      match db.groupMembers.find? (fun m => m.groupId == gid && m.userId == userId) with
      | some _ => none
      | none => some .notAMember
  else
    if game.userId ≠ some userId then some .notAuthorized else none

/-- The target-location lookup: query the table selected by `locationSource`
(falling back to the image table for image game types), returning
`(latitude, longitude)` — for image maps `lat = y`, `lng = x`. -/
def guessTargetLocation (db : DB) (round : GameRound) (isImage : Bool) :
    Option (ℝ × ℝ) :=
  if round.locationSource == "worldLocations" then
    (db.worldLocations.find? (fun l => l.id == round.locationId)).map
      (fun l => (l.latitude, l.longitude))
  else if round.locationSource == "imageLocations" || isImage then
    (db.imageLocations.find? (fun l => l.id == round.locationId)).map
      (fun l => (l.y, l.x))
  else
    (db.locations.find? (fun l => l.id == round.locationId)).map
      (fun l => (l.latitude, l.longitude))

/-- The route `POST /api/guesses`.  `session` is the authenticated user id and `freshId`
the `nanoid()` oracle.  Returns the response and the new database state. -/
noncomputable def submitGuess (db : DB) (session : Option String)
    (req : GuessRequest) (freshId : Nat → String) : GuessResult × DB :=
  match session with
  | none => (.unauthorized, db)
  | some userId =>
    match db.gameRounds.find? (fun r => r.id == req.gameRoundId) with
    | none => (.roundNotFound, db)
    | some round =>
      match db.games.find? (fun g => g.id == round.gameId) with
      | none => (.roundNotFound, db)
      | some game =>
        if round.roundNumber > game.currentRound then (.roundNotReleased, db)
        else
          match guessAuthError db userId game with
          | some e => (e, db)
          | none =>
            match db.guesses.find?
                (fun gu => gu.gameRoundId == req.gameRoundId && gu.userId == userId) with
            | some _ => (.alreadyGuessed, db)
            | none =>
              let effectiveGameType :=
                strOr round.gameType (getGameTypeFromCountry game.country)
              let isImage := isImageGameType (some effectiveGameType)
              match guessTargetLocation db round isImage with
              | none => (.locationNotFound, db)
              | some target =>
                let distanceKm : ℝ :=
                  if req.timeout then
                    ((getGameTypeConfig effectiveGameType).timeoutPenalty : ℝ)
                  else if isImage then
                    calculatePixelDistance req.longitude req.latitude target.2 target.1
                  else
                    calculateDistance req.latitude req.longitude target.1 target.2
                let guessId := freshId 0
                let newGuess : Guess :=
                  { id := guessId
                    gameRoundId := req.gameRoundId
                    userId := userId
                    latitude := if req.timeout then none else some req.latitude
                    longitude := if req.timeout then none else some req.longitude
                    distanceKm := distanceKm
                    timeSeconds := natOrNull req.timeSeconds }
                let db' : DB := { db with guesses := db.guesses ++ [newGuess] }
                (.ok guessId distanceKm (calculateScore distanceKm effectiveGameType)
                  effectiveGameType target.1 target.2, db')

/-! ### Interleaving model of concurrent release requests

The release route performs its database accesses in separate `await`ed
statements with no transaction around them:

1. `SELECT game` (reads `currentRound`),
2. `SELECT groupMembers` (group games only; pure check for solo games),
3. `SELECT gameRounds` (reads `usedLocationIds`),
4. `INSERT gameRounds` (after the in-memory availability check),
5. `UPDATE games SET currentRound = newRoundNumber`.

Each step below is one of these atomic accesses; between steps another request
handler may run.  The per-thread state stores exactly the snapshots the handler
keeps in local variables. -/

/-- Local state of one in-flight release request handler. -/
structure RThread where
  userId : String
  req : ReleaseRequest
  shuffle : List SelLoc → List SelLoc
  freshId : Nat → String
  pc : Nat := 0
  gameSnap : Option Game := none
  usedSnap : List String := []
  result : Option ReleaseResult := none

/-- Execute one atomic database access of a release handler. -/
def releaseStep (t : RThread) (db : DB) : RThread × DB :=
  if t.result.isSome then (t, db)
  else
    match t.pc with
    | 0 =>
      -- body validation and `SELECT game`
      if t.req.gameId = "" then ({ t with result := some .gameIdRequired }, db)
      else ({ t with pc := 1, gameSnap := db.games.find? (fun g => g.id == t.req.gameId) }, db)
    | 1 =>
      -- not-found handling and the authorization check (membership `SELECT`)
      match t.gameSnap with
      | none => ({ t with result := some .gameNotFound }, db)
      | some game =>
        match releaseAuthError db t.userId game with
        | some e => ({ t with result := some e }, db)
        | none => ({ t with pc := 2 }, db)
    | 2 =>
      -- `SELECT gameRounds` for `usedLocationIds`
      ({ t with pc := 3, usedSnap := usedLocationIds db t.req.gameId }, db)
    | 3 =>
      -- pool `SELECT`, in-memory availability check, and `INSERT gameRounds`
      match t.gameSnap with
      | none => (t, db)
      | some game =>
        let effectiveGameType := strOr t.req.gameType (getEffectiveGameType game)
        let effectiveLocationsPerRound := natOr t.req.locationsPerRound game.locationsPerRound
        let sel := poolSelection db effectiveGameType t.usedSnap
        if sel.1.length < effectiveLocationsPerRound then
          let res : ReleaseResult :=
            .insufficientLocations effectiveLocationsPerRound sel.1.length
          ({ t with result := some res }, db)
        else
          let selectedLocations := (t.shuffle sel.1).take effectiveLocationsPerRound
          let newRoundNumber := game.currentRound + 1
          let gameRoundsToInsert := selectedLocations.enum.map (fun p =>
            { id := t.freshId p.1
              gameId := t.req.gameId
              roundNumber := newRoundNumber
              locationIndex := p.1 + 1
              locationId := p.2.id
              locationSource := sel.2.2
              country := sel.2.1
              gameType := some effectiveGameType
              timeLimitSeconds := natOrNull t.req.timePerRound : GameRound })
          ({ t with pc := 4 },
            { db with gameRounds := db.gameRounds ++ gameRoundsToInsert })
    | _ =>
      -- `UPDATE games` and response
      match t.gameSnap with
      | none => (t, db)
      | some game =>
        let effectiveGameType := strOr t.req.gameType (getEffectiveGameType game)
        let effectiveLocationsPerRound := natOr t.req.locationsPerRound game.locationsPerRound
        let newRoundNumber := game.currentRound + 1
        let res : ReleaseResult :=
          .released newRoundNumber effectiveLocationsPerRound effectiveGameType
        ({ t with result := some res },
          { db with games := db.games.map (fun g =>
              if g.id == t.req.gameId then
                { g with currentRound := newRoundNumber, leaderboardRevealed := false }
              else g) })

/-- Run two concurrent release handlers under a schedule: `true` steps the first
handler, `false` the second. -/
def runSchedule : List Bool → RThread × RThread × DB → RThread × RThread × DB
  | [], s => s
  | b :: rest, (ta, tb, db) =>
    if b then
      let (ta', db') := releaseStep ta db
      runSchedule rest (ta', tb, db')
    else
      let (tb', db') := releaseStep tb db
      runSchedule rest (ta, tb', db')

/-! ### Derived observations used by the theorems -/

/-- Whether a `ReleaseResult` is the success case. -/
def ReleaseResult.isReleased : ReleaseResult → Bool
  | .released _ _ _ => true
  | _ => false

/-- The `currentRound` of a game as stored in the database. -/
def gameCurrentRound (db : DB) (gameId : String) : Option Nat :=
  (db.games.find? (fun g => g.id == gameId)).map (fun g => g.currentRound)

/-- Number of persisted guesses for one `(gameRoundId, userId)` pair. -/
def guessCount (db : DB) (gameRoundId userId : String) : Nat :=
  (db.guesses.filter (fun gu => gu.gameRoundId == gameRoundId && gu.userId == userId)).length

/-- The spec's description of the geodesic distance, written independently of the
source: "haversine formula, Earth radius = 6371 km, result rounded to 1 decimal
place", with the central angle expressed through `arcsin` as in the textbook
haversine formula. -/
noncomputable def haversineDistanceSpec (lat1 lon1 lat2 lon2 : ℝ) : ℝ :=
  let R : ℝ := 6371
  let a :=
    Real.sin ((lat2 - lat1) * Real.pi / 180 / 2) ^ 2 +
      Real.cos (lat1 * Real.pi / 180) * Real.cos (lat2 * Real.pi / 180) *
        Real.sin ((lon2 - lon1) * Real.pi / 180 / 2) ^ 2
  let c := 2 * Real.arcsin (Real.sqrt a)
  (jsRound (R * c * 10) : ℝ) / 10

/-! ### Concrete scenario for the concurrent double-release -/

def raceGame : Game :=
  { id := "g1", groupId := none, userId := some "u1", mode := "solo"
    country := "switzerland", gameType := some "country:switzerland"
    locationsPerRound := 1, currentRound := 0 }

def raceLoc : LocationRow :=
  { id := "l1", name := "Bundeshaus", latitude := 0, longitude := 0
    country := "Switzerland" }

def raceDB : DB :=
  { games := [raceGame], groupMembers := [], locations := [raceLoc]
    worldLocations := [], imageLocations := [], gameRounds := [], guesses := [] }

def raceReq : ReleaseRequest := { gameId := "g1" }

def raceThreadA : RThread :=
  { userId := "u1", req := raceReq, shuffle := id, freshId := fun _ => "ra" }

def raceThreadB : RThread :=
  { userId := "u1", req := raceReq, shuffle := id, freshId := fun _ => "rb" }

/-- Schedule: handler A executes its three reads, then handler B executes its
three reads, then each performs its insert and update. -/
def raceSchedule : List Bool :=
  [true, true, true, false, false, false, true, true, false, false]

/-! ## Theorems -/

/-! ### Shared helper lemmas -/

lemma jsRound_le_jsRound {x y : ℝ} (h : x ≤ y) : jsRound x ≤ jsRound y :=
  Int.floor_le_floor (by linarith)

lemma jsRound_hundred : jsRound (100 : ℝ) = 100 := by
  unfold jsRound
  exact Int.floor_eq_iff.mpr (by norm_num)

lemma getGameTypeConfig_default : getGameTypeConfig "country:switzerland" = gtSwitzerland := by
  rfl

lemma scoreScaleFactor_pos (gameTypeId : String) :
    0 < (getGameTypeConfig gameTypeId).scoreScaleFactor := by
  unfold getGameTypeConfig
  rcases hf : GAME_TYPES.find? (fun p => p.1 == gameTypeId) with _ | p
  · rw [hf]
    norm_num [gtSwitzerland]
  · rw [hf]
    have hp := List.mem_of_find?_eq_some hf
    fin_cases hp <;> norm_num [gtSwitzerland, gtSlovenia, gtWorld, gtGarten]

/-! ### C6: score function -/

/-- C6: `calculateScore(distance, gameTypeId)` equals
`round(100 * e^(-distance/scaleFactor))` clamped to `[0,100]` with `scaleFactor`
the resolved game type's `scoreScaleFactor`; it is monotonically non-increasing
in the distance, `calculateScore 0 = 100`, and the result is an integer in
`[0,100]`. -/
theorem calculateScore_spec (gameTypeId : String) (d d1 d2 : ℝ) (h12 : d1 < d2) :
    calculateScore d gameTypeId
        = max 0 (min 100 (jsRound (100 * Real.exp
            (-(d / ((getGameTypeConfig gameTypeId).scoreScaleFactor : ℝ))))))
    ∧ calculateScore d2 gameTypeId ≤ calculateScore d1 gameTypeId
    ∧ calculateScore 0 gameTypeId = 100
    ∧ 0 ≤ calculateScore d gameTypeId ∧ calculateScore d gameTypeId ≤ 100 := by
  have hs : (0 : ℝ) < ((getGameTypeConfig gameTypeId).scoreScaleFactor : ℝ) := by
    exact_mod_cast scoreScaleFactor_pos gameTypeId
  refine ⟨rfl, ?_, ?_, ?_, ?_⟩
  · unfold calculateScore
    refine max_le_max le_rfl (min_le_min le_rfl (jsRound_le_jsRound ?_))
    have hdiv : d1 / ((getGameTypeConfig gameTypeId).scoreScaleFactor : ℝ)
        ≤ d2 / ((getGameTypeConfig gameTypeId).scoreScaleFactor : ℝ) := by
      gcongr
    have hexp := Real.exp_le_exp.mpr (neg_le_neg hdiv)
    exact mul_le_mul_of_nonneg_left hexp (by norm_num)
  · simp only [calculateScore, zero_div, neg_zero, Real.exp_zero, mul_one, jsRound_hundred]
    decide
  · exact le_max_left _ _
  · unfold calculateScore
    exact max_le (by norm_num) (le_trans (min_le_left _ _) (by norm_num))

/-- Witness for C6 at `gameTypeId = "country:switzerland"`, `d = 50`, `d1 = 0`,
`d2 = 1`. -/
theorem calculateScore_spec_witness :
    calculateScore 50 "country:switzerland"
        = max 0 (min 100 (jsRound (100 * Real.exp
            (-(50 / ((getGameTypeConfig "country:switzerland").scoreScaleFactor : ℝ))))))
    ∧ calculateScore 1 "country:switzerland" ≤ calculateScore 0 "country:switzerland"
    ∧ calculateScore 0 "country:switzerland" = 100
    ∧ 0 ≤ calculateScore 50 "country:switzerland"
    ∧ calculateScore 50 "country:switzerland" ≤ 100 :=
  calculateScore_spec "country:switzerland" 50 0 1 (by norm_num)

/-! ### C8: pixel distance -/

/-- C8: `calculatePixelDistance(x1,y1,x2,y2)` equals the Euclidean pixel distance
converted at 10/92 meters per pixel, rounded to the nearest meter, expressed in
kilometers; in particular `calculatePixelDistance 0 0 92 0 = 0.010` km. -/
theorem calculatePixelDistance_spec (x1 y1 x2 y2 : ℝ) :
    calculatePixelDistance x1 y1 x2 y2
        = (jsRound (Real.sqrt ((x2 - x1) ^ 2 + (y2 - y1) ^ 2) * (10 / 92)) : ℝ) / 1000
    ∧ calculatePixelDistance 0 0 92 0 = 0.010 := by
  constructor
  · rfl
  · have h92 : Real.sqrt (((92 : ℝ) - 0) ^ 2 + ((0 : ℝ) - 0) ^ 2) = 92 := by
      rw [show ((92 : ℝ) - 0) ^ 2 + ((0 : ℝ) - 0) ^ 2 = 92 ^ 2 by norm_num]
      exact Real.sqrt_sq (by norm_num)
    have h10 : jsRound ((10 : ℝ)) = 10 := by
      unfold jsRound
      exact Int.floor_eq_iff.mpr (by norm_num)
    simp only [calculatePixelDistance, h92]
    rw [show (92 : ℝ) * (10 / 92) = 10 by norm_num, h10]
    norm_num

/-! ### C10: unknown game type ids fall back to the Switzerland config -/

/-- C10: for every string that is not a key of the game-type registry,
`getGameTypeConfig` returns the `"country:switzerland"` configuration
(`scoreScaleFactor` 100, `timeoutPenalty` 400), so score computation, hint
radius and bounds resolution are total and silently use Switzerland's
configuration for unknown ids. -/
theorem getGameTypeConfig_unknown_defaults (gameTypeId : String) (d : ℝ)
    (h : gameTypeId ∉ GAME_TYPES.map Prod.fst) :
    getGameTypeConfig gameTypeId = gtSwitzerland
    ∧ (getGameTypeConfig gameTypeId).scoreScaleFactor = 100
    ∧ (getGameTypeConfig gameTypeId).timeoutPenalty = 400
    ∧ calculateScore d gameTypeId = calculateScore d "country:switzerland"
    ∧ getHintCircleRadius gameTypeId = getHintCircleRadius "country:switzerland"
    ∧ getBoundsForGameType gameTypeId = getBoundsForGameType "country:switzerland" := by
  have hnone : GAME_TYPES.find? (fun p => p.1 == gameTypeId) = none := by
    rw [List.find?_eq_none]
    intro p hp hbeq
    exact h (by
      have : p.1 = gameTypeId := by simpa using hbeq
      exact this ▸ List.mem_map_of_mem Prod.fst hp)
  have hcfg : getGameTypeConfig gameTypeId = gtSwitzerland := by
    unfold getGameTypeConfig
    rw [hnone]
  refine ⟨hcfg, by rw [hcfg]; rfl, by rw [hcfg]; rfl, ?_, ?_, ?_⟩
  · unfold calculateScore
    rw [hcfg, getGameTypeConfig_default]
  · unfold getHintCircleRadius
    rw [hcfg, getGameTypeConfig_default]
  · unfold getBoundsForGameType
    rw [hcfg, getGameTypeConfig_default]

/-- Witness for C10 at the unknown id `"country:atlantis"` and `d = 50`. -/
theorem getGameTypeConfig_unknown_defaults_witness :
    getGameTypeConfig "country:atlantis" = gtSwitzerland
    ∧ (getGameTypeConfig "country:atlantis").scoreScaleFactor = 100
    ∧ (getGameTypeConfig "country:atlantis").timeoutPenalty = 400
    ∧ calculateScore 50 "country:atlantis" = calculateScore 50 "country:switzerland"
    ∧ getHintCircleRadius "country:atlantis" = getHintCircleRadius "country:switzerland"
    ∧ getBoundsForGameType "country:atlantis" = getBoundsForGameType "country:switzerland" :=
  getGameTypeConfig_unknown_defaults "country:atlantis" 50 (by decide)

/-! ### C9: the release route is not atomic -/

/-- C9 (refuting evaluation): under the interleaving `raceSchedule`, two
concurrent release calls for the same game `"g1"` both succeed with the same
round number 1, creating two round-1 `GameRound` batches (with the same
location), and both write `currentRound = 1`.  The release route performs its
reads, insert and update in separate non-transactional statements, so at-most-one
successful release per `(gameId, roundNumber)` is not enforced. -/
theorem releaseRound_race_double_release :
    (runSchedule raceSchedule (raceThreadA, raceThreadB, raceDB)).1.result
        = some (.released 1 1 "country:switzerland")
    ∧ (runSchedule raceSchedule (raceThreadA, raceThreadB, raceDB)).2.1.result
        = some (.released 1 1 "country:switzerland")
    ∧ ((runSchedule raceSchedule (raceThreadA, raceThreadB, raceDB)).2.2.gameRounds.filter
          (fun r => r.gameId == "g1" && r.roundNumber == 1)).length = 2
    ∧ ((runSchedule raceSchedule (raceThreadA, raceThreadB, raceDB)).2.2.gameRounds.map
          (fun r => r.locationId)) = ["l1", "l1"]
    ∧ gameCurrentRound (runSchedule raceSchedule (raceThreadA, raceThreadB, raceDB)).2.2 "g1"
        = some 1 := by
  decide

/-! ### C4: hint circle geometry -/

lemma hintLoop_mem_destination (targetLat targetLng radiusKm : ℝ) (gameType : String)
    (rnd : Nat → ℝ) :
    ∀ (bs : List ℝ) (k : Nat) (c : ℝ × ℝ),
      hintLoop targetLat targetLng radiusKm gameType rnd bs k = some c →
      ∃ b m, c = calculateDestination targetLat targetLng
          (hintPlacementDistance radiusKm (rnd (m + 1))) (b + (rnd m * 60 - 30)) := by
  intro bs
  induction bs with
  | nil => intro k c h; simp [hintLoop] at h
  | cons hd tl ih =>
    intro k c h
    rw [hintLoop] at h
    split at h
    · exact ⟨hd, k, (Option.some.injEq _ _ ▸ h).symm⟩
    · exact ih (k + 2) c h

/-- C4 (evaluation of the defect): the hint radius resolved for the image game
type is `getHintCircleRadius "image:garten" = 0.021` km, but
`minBuffer = max(5, 0.08 * 0.021) = 5` km, so the required band
`minBuffer ≤ d ≤ radiusKm - minBuffer` is empty, and the circle center is in fact
projected `5` km away from the target (for `Math.random()` draws equal to 0) —
the target lies far outside the 21 m hint circle, contradicting the function's
own guarantee. -/
theorem hintCircle_target_outside_for_small_radius :
    getHintCircleRadius "image:garten" = 0.021
    ∧ hintMinBuffer 0.021 = 5
    ∧ (∀ d : ℝ, ¬ (hintMinBuffer 0.021 ≤ d ∧ d ≤ 0.021 - hintMinBuffer 0.021))
    ∧ hintPlacementDistance 0.021 0 = 5
    ∧ (∃ b, generateHintCircleCenter 46.8 8.2 0.021 "image:garten" (fun _ => 0)
          = calculateDestination 46.8 8.2 5 b) := by
  have hminb : hintMinBuffer 0.021 = 5 := by
    unfold hintMinBuffer
    rw [max_eq_left (by norm_num)]
  have hpd : hintPlacementDistance 0.021 0 = 5 := by
    unfold hintPlacementDistance
    rw [hminb]
    ring
  refine ⟨?_, hminb, ?_, hpd, ?_⟩
  · have hg : getGameTypeConfig "image:garten" = gtGarten := by rfl
    unfold getHintCircleRadius
    rw [hg]
    show (if gtGarten.type = GTType.world then (3000 : ℝ)
        else (gtGarten.scoreScaleFactor : ℝ) * 0.6) = 0.021
    rw [if_neg (by decide : ¬ gtGarten.type = GTType.world)]
    norm_num [gtGarten]
  · intro d hd
    rw [hminb] at hd
    linarith [hd.1, hd.2]
  · rcases hl : hintLoop 46.8 8.2 0.021 "image:garten" (fun _ => 0)
        (getBestBearings 46.8 8.2 "image:garten") 0 with _ | c
    · refine ⟨(getBestBearings 46.8 8.2 "image:garten").headD 0 + ((0 : ℝ) * 60 - 30), ?_⟩
      simp only [generateHintCircleCenter, hl]
      rw [hpd]
    · obtain ⟨b, m, hc⟩ := hintLoop_mem_destination 46.8 8.2 0.021 "image:garten"
        (fun _ => 0) _ 0 c hl
      refine ⟨b + ((0 : ℝ) * 60 - 30), ?_⟩
      simp only [generateHintCircleCenter, hl]
      rw [hc, hpd]

/-! ### C1, C2: round release -/

lemma poolSelection_not_used (db : DB) (eff : String) (used : List String) :
    ∀ l ∈ (poolSelection db eff used).1, used.contains l.id = false := by
  intro l hl
  unfold poolSelection at hl
  split at hl
  · -- image game type
    rcases hmid : getImageMapId eff with _ | mid
    · simp only [hmid] at hl
      simp at hl
    · simp only [hmid] at hl
      by_cases hempty : mid = ""
      · rw [if_pos hempty] at hl
        simp at hl
      · rw [if_neg hempty] at hl
        obtain ⟨x, hx, rfl⟩ := List.mem_map.mp hl
        have h2 := (List.mem_filter.mp hx).2
        simpa using h2
  · split at hl
    · -- world game type
      rcases hcat : getWorldCategory eff with _ | cat
      · simp only [hcat] at hl
        simp at hl
      · simp only [hcat] at hl
        by_cases hempty : cat = ""
        · rw [if_pos hempty] at hl
          simp at hl
        · rw [if_neg hempty] at hl
          obtain ⟨x, hx, rfl⟩ := List.mem_map.mp hl
          have h2 := (List.mem_filter.mp hx).2
          simpa using h2
    · -- country game type
      obtain ⟨x, hx, rfl⟩ := List.mem_map.mp hl
      have h2 := (List.mem_filter.mp hx).2
      simpa using h2

/-- The new `GameRound` rows inserted by a successful release. -/
def releaseInsertedRounds (db : DB) (req : ReleaseRequest) (game : Game)
    (shuffle : List SelLoc → List SelLoc) (freshId : Nat → String) : List GameRound :=
  let eff := strOr req.gameType (getEffectiveGameType game)
  let lpr := natOr req.locationsPerRound game.locationsPerRound
  let sel := poolSelection db eff (usedLocationIds db req.gameId)
  ((shuffle sel.1).take lpr).enum.map (fun p =>
    { id := freshId p.1
      gameId := req.gameId
      roundNumber := game.currentRound + 1
      locationIndex := p.1 + 1
      locationId := p.2.id
      locationSource := sel.2.2
      country := sel.2.1
      gameType := some eff
      timeLimitSeconds := natOrNull req.timePerRound : GameRound })

/-- Either a release leaves `gameRounds` unchanged, or it appends exactly the
batch of new rounds for the found game. -/
lemma releaseRound_gameRounds_cases (db : DB) (s : Option String) (req : ReleaseRequest)
    (shuffle : List SelLoc → List SelLoc) (freshId : Nat → String) :
    (releaseRound db s req shuffle freshId).2.gameRounds = db.gameRounds
    ∨ ∃ game, db.games.find? (fun g => g.id == req.gameId) = some game ∧
        (releaseRound db s req shuffle freshId).2.gameRounds
          = db.gameRounds ++ releaseInsertedRounds db req game shuffle freshId := by
  unfold releaseRound
  split
  · exact Or.inl rfl
  · split
    · exact Or.inl rfl
    · split
      · exact Or.inl rfl
      · rename_i game hf
        split
        · exact Or.inl rfl
        · dsimp only
          split
          · exact Or.inl rfl
          · exact Or.inr ⟨game, hf, rfl⟩

/-- C1: a successful release never selects a `locationId` already used by any
`GameRound` previously created for the same game.  The database `db` is
arbitrary, so this holds at every point of every sequence of releases: the
pre-existing rounds are preserved as a prefix, and the location ids of all newly
appended rounds are disjoint from the game's entire location history. -/
theorem releaseRound_no_repeat (db : DB) (session : Option String) (req : ReleaseRequest)
    (shuffle : List SelLoc → List SelLoc) (freshId : Nat → String)
    (hsh : ∀ l, (shuffle l).Perm l) :
    (releaseRound db session req shuffle freshId).2.gameRounds.take db.gameRounds.length
        = db.gameRounds
    ∧ (((releaseRound db session req shuffle freshId).2.gameRounds.drop
          db.gameRounds.length).map (fun r => r.locationId)).Disjoint
        (usedLocationIds db req.gameId) := by
  rcases releaseRound_gameRounds_cases db session req shuffle freshId with h | ⟨game, hf, h⟩
  · rw [h, List.take_length, List.drop_length]
    exact ⟨rfl, by simp [List.Disjoint]⟩
  · rw [h, List.take_left, List.drop_left]
    refine ⟨rfl, ?_⟩
    intro a ha hused
    have hmap : (releaseInsertedRounds db req game shuffle freshId).map
        (fun r => r.locationId)
        = ((shuffle (poolSelection db (strOr req.gameType (getEffectiveGameType game))
            (usedLocationIds db req.gameId)).1).take
              (natOr req.locationsPerRound game.locationsPerRound)).map
            (fun l => l.id) := by
      unfold releaseInsertedRounds
      rw [List.map_map]
      have hcomp : ((fun r : GameRound => r.locationId) ∘ (fun p : Nat × SelLoc =>
          { id := freshId p.1
            gameId := req.gameId
            roundNumber := game.currentRound + 1
            locationIndex := p.1 + 1
            locationId := p.2.id
            locationSource := (poolSelection db (strOr req.gameType (getEffectiveGameType game))
              (usedLocationIds db req.gameId)).2.2
            country := (poolSelection db (strOr req.gameType (getEffectiveGameType game))
              (usedLocationIds db req.gameId)).2.1
            gameType := some (strOr req.gameType (getEffectiveGameType game))
            timeLimitSeconds := natOrNull req.timePerRound : GameRound }))
          = (fun l : SelLoc => l.id) ∘ Prod.snd := rfl
      rw [hcomp, ← List.map_map, List.enum_map_snd]
    rw [hmap] at ha
    obtain ⟨loc, hloc, rfl⟩ := List.mem_map.mp ha
    have hloc2 : loc ∈ (poolSelection db (strOr req.gameType (getEffectiveGameType game))
        (usedLocationIds db req.gameId)).1 :=
      ((hsh _).subset) (List.take_subset _ _ hloc)
    have hnot := poolSelection_not_used db _ _ _ hloc2
    simp at hnot
    exact hnot hused

/-- Witness for C1: a successful release on the concrete database `raceDB`
(identity shuffle). -/
theorem releaseRound_no_repeat_witness :
    (releaseRound raceDB (some "u1") raceReq id (fun _ => "r1")).2.gameRounds.take
        raceDB.gameRounds.length = raceDB.gameRounds
    ∧ (((releaseRound raceDB (some "u1") raceReq id (fun _ => "r1")).2.gameRounds.drop
          raceDB.gameRounds.length).map (fun r => r.locationId)).Disjoint
        (usedLocationIds raceDB raceReq.gameId) :=
  releaseRound_no_repeat raceDB (some "u1") raceReq id (fun _ => "r1")
    (fun l => List.Perm.refl l)

/-- C2: when the type-filtered pool minus the game's used locations is smaller
than the effective `locationsPerRound`, the release returns the
insufficient-locations error reporting required vs available counts and leaves
the database unchanged; and every successful release leaves `currentRound` at
exactly its previous value plus 1. -/
theorem releaseRound_insufficient_no_mutation (db : DB) (session : Option String)
    (uid : String) (req : ReleaseRequest) (shuffle : List SelLoc → List SelLoc)
    (freshId : Nat → String) (game : Game)
    (hs : session = some uid)
    (hgid : ¬ req.gameId = "")
    (hf : db.games.find? (fun g => g.id == req.gameId) = some game)
    (hauth : releaseAuthError db uid game = none) :
    ((poolSelection db (strOr req.gameType (getEffectiveGameType game))
        (usedLocationIds db req.gameId)).1.length
          < natOr req.locationsPerRound game.locationsPerRound →
      releaseRound db session req shuffle freshId
        = (.insufficientLocations (natOr req.locationsPerRound game.locationsPerRound)
            (poolSelection db (strOr req.gameType (getEffectiveGameType game))
              (usedLocationIds db req.gameId)).1.length, db))
    ∧ ((releaseRound db session req shuffle freshId).1.isReleased = true →
        gameCurrentRound (releaseRound db session req shuffle freshId).2 req.gameId
            = some (game.currentRound + 1)
        ∧ gameCurrentRound db req.gameId = some game.currentRound) := by
  have hbeq := List.find?_some hf
  unfold releaseRound
  split
  · cases hs
  · rename_i u'
    obtain rfl : u' = uid := Option.some.inj hs
    split
    · rename_i hempty
      exact absurd hempty hgid
    · split
      · rename_i heq2
        rw [heq2] at hf
        cases hf
      · rename_i g0 heq2
        rw [heq2] at hf
        obtain rfl : g0 = game := Option.some.inj hf
        split
        · rename_i e heq3
          rw [heq3] at hauth
          cases hauth
        · dsimp only
          constructor
          · intro hlen
            rw [if_pos hlen]
          · intro hrel
            by_cases hlen : (poolSelection db (strOr req.gameType (getEffectiveGameType g0))
                (usedLocationIds db req.gameId)).1.length
                  < natOr req.locationsPerRound g0.locationsPerRound
            · rw [if_pos hlen] at hrel
              simp [ReleaseResult.isReleased] at hrel
            · rw [if_neg hlen]
              constructor
              · unfold gameCurrentRound
                have hcomp : ((fun g : Game => g.id == req.gameId) ∘ (fun g : Game =>
                    if (g.id == req.gameId) = true then
                      { g with currentRound := g0.currentRound + 1, leaderboardRevealed := false }
                    else g)) = fun g : Game => g.id == req.gameId := by
                  funext g
                  by_cases h : (g.id == req.gameId) = true
                  · rw [Function.comp_apply, if_pos h]
                  · rw [Function.comp_apply, if_neg h]
                rw [List.find?_map, hcomp, heq2]
                have hid : g0.id = req.gameId := by simpa using hbeq
                simp [hid]
              · unfold gameCurrentRound
                rw [heq2]
                rfl

/-- A database whose game `"g2"` needs 5 locations per round while the pool is
empty. -/
def lowGame : Game :=
  { id := "g2", groupId := none, userId := some "u1", mode := "solo"
    country := "switzerland", gameType := some "country:switzerland"
    locationsPerRound := 5, currentRound := 0 }

def lowDB : DB :=
  { games := [lowGame], groupMembers := [], locations := [], worldLocations := []
    imageLocations := [], gameRounds := [], guesses := [] }

def lowReq : ReleaseRequest := { gameId := "g2" }

/-- Witness for C2: the empty-pool database `lowDB` (insufficiency branch) and
the one-location database `raceDB` (successful-increment branch). -/
theorem releaseRound_insufficient_no_mutation_witness :
    (((poolSelection lowDB (strOr lowReq.gameType (getEffectiveGameType lowGame))
        (usedLocationIds lowDB lowReq.gameId)).1.length
          < natOr lowReq.locationsPerRound lowGame.locationsPerRound →
      releaseRound lowDB (some "u1") lowReq id (fun _ => "r1")
        = (.insufficientLocations (natOr lowReq.locationsPerRound lowGame.locationsPerRound)
            (poolSelection lowDB (strOr lowReq.gameType (getEffectiveGameType lowGame))
              (usedLocationIds lowDB lowReq.gameId)).1.length, lowDB))
    ∧ ((releaseRound lowDB (some "u1") lowReq id (fun _ => "r1")).1.isReleased = true →
        gameCurrentRound (releaseRound lowDB (some "u1") lowReq id (fun _ => "r1")).2 lowReq.gameId
            = some (lowGame.currentRound + 1)
        ∧ gameCurrentRound lowDB lowReq.gameId = some lowGame.currentRound))
    ∧ (((poolSelection raceDB (strOr raceReq.gameType (getEffectiveGameType raceGame))
        (usedLocationIds raceDB raceReq.gameId)).1.length
          < natOr raceReq.locationsPerRound raceGame.locationsPerRound →
      releaseRound raceDB (some "u1") raceReq id (fun _ => "r2")
        = (.insufficientLocations (natOr raceReq.locationsPerRound raceGame.locationsPerRound)
            (poolSelection raceDB (strOr raceReq.gameType (getEffectiveGameType raceGame))
              (usedLocationIds raceDB raceReq.gameId)).1.length, raceDB))
    ∧ ((releaseRound raceDB (some "u1") raceReq id (fun _ => "r2")).1.isReleased = true →
        gameCurrentRound (releaseRound raceDB (some "u1") raceReq id (fun _ => "r2")).2 raceReq.gameId
            = some (raceGame.currentRound + 1)
        ∧ gameCurrentRound raceDB raceReq.gameId = some raceGame.currentRound)) :=
  ⟨releaseRound_insufficient_no_mutation lowDB (some "u1") "u1" lowReq id (fun _ => "r1")
      lowGame rfl (by decide) (by decide) (by decide),
    releaseRound_insufficient_no_mutation raceDB (some "u1") "u1" raceReq id (fun _ => "r2")
      raceGame rfl (by decide) (by decide) (by decide)⟩

/-! ### C5: guesses only for released rounds -/

/-- C5: a guess for a round whose `roundNumber` exceeds the game's
`currentRound` is rejected with `roundNotReleased` and the database (in
particular the set of persisted guesses) is unchanged; conversely a guess is
only accepted when `roundNumber ≤ currentRound`. -/
theorem submitGuess_roundNotReleased (db : DB) (session : Option String) (uid : String)
    (req : GuessRequest) (freshId : Nat → String) (round : GameRound) (game : Game)
    (hs : session = some uid)
    (hr : db.gameRounds.find? (fun r => r.id == req.gameRoundId) = some round)
    (hg : db.games.find? (fun g => g.id == round.gameId) = some game) :
    (game.currentRound < round.roundNumber →
      submitGuess db session req freshId = (.roundNotReleased, db))
    ∧ ((submitGuess db session req freshId).1.isOk = true →
        round.roundNumber ≤ game.currentRound) := by
  unfold submitGuess
  split
  · cases hs
  · rename_i u'
    obtain rfl : u' = uid := Option.some.inj hs
    split
    · rename_i heq
      rw [heq] at hr
      cases hr
    · rename_i r0 heq
      rw [heq] at hr
      obtain rfl : r0 = round := Option.some.inj hr
      split
      · rename_i heq2
        rw [heq2] at hg
        cases hg
      · rename_i g0 heq2
        rw [heq2] at hg
        obtain rfl : g0 = game := Option.some.inj hg
        constructor
        · intro hlt
          rw [if_pos hlt]
        · intro hok
          by_cases hrel : r0.roundNumber > g0.currentRound
          · rw [if_pos hrel] at hok
            simp [GuessResult.isOk] at hok
          · omega

/-- Witness database for C5: round `"r1"` of game `"g1"` has `roundNumber = 1`
while `currentRound = 0`. -/
def unreleasedGame : Game :=
  { id := "g1", groupId := none, userId := some "u1", mode := "solo"
    country := "switzerland", gameType := some "country:switzerland"
    locationsPerRound := 1, currentRound := 0 }

def unreleasedRound : GameRound :=
  { id := "r1", gameId := "g1", roundNumber := 1, locationIndex := 1
    locationId := "l1", locationSource := "locations", country := "switzerland"
    gameType := some "country:switzerland" }

def unreleasedDB : DB :=
  { games := [unreleasedGame], groupMembers := [], locations := [raceLoc]
    worldLocations := [], imageLocations := [], gameRounds := [unreleasedRound]
    guesses := [] }

def unreleasedReq : GuessRequest :=
  { gameRoundId := "r1", latitude := 0, longitude := 0, timeout := true }

/-- Witness for C5 on the concrete database `unreleasedDB`. -/
theorem submitGuess_roundNotReleased_witness :
    (unreleasedGame.currentRound < unreleasedRound.roundNumber →
      submitGuess unreleasedDB (some "u1") unreleasedReq (fun _ => "gid")
        = (.roundNotReleased, unreleasedDB))
    ∧ ((submitGuess unreleasedDB (some "u1") unreleasedReq (fun _ => "gid")).1.isOk = true →
        unreleasedRound.roundNumber ≤ unreleasedGame.currentRound) :=
  submitGuess_roundNotReleased unreleasedDB (some "u1") "u1" unreleasedReq (fun _ => "gid")
    unreleasedRound unreleasedGame rfl (by decide) (by decide)

/-! ### C3: at most one guess per (gameRoundId, userId) -/

lemma guessAuthError_some_not_ok (db : DB) (uid : String) (game : Game)
    (r : GuessResult) (h : guessAuthError db uid game = some r) : r.isOk = false := by
  unfold guessAuthError at h
  split at h
  · split at h
    · obtain rfl := Option.some.inj h
      rfl
    · split at h
      · cases h
      · obtain rfl := Option.some.inj h
        rfl
  · split at h
    · obtain rfl := Option.some.inj h
      rfl
    · cases h

/-- Either `submitGuess` rejects and leaves the database unchanged, or it
succeeds having verified that no guess for `(gameRoundId, userId)` exists and
appends exactly one guess for that pair. -/
lemma submitGuess_cases (db : DB) (session : Option String) (uid : String)
    (req : GuessRequest) (freshId : Nat → String) (hs : session = some uid) :
    ((submitGuess db session req freshId).1.isOk = false
      ∧ (submitGuess db session req freshId).2 = db)
    ∨ ((submitGuess db session req freshId).1.isOk = true
      ∧ db.guesses.find?
          (fun gu => gu.gameRoundId == req.gameRoundId && gu.userId == uid) = none
      ∧ ∃ round game,
          db.gameRounds.find? (fun r => r.id == req.gameRoundId) = some round
          ∧ db.games.find? (fun gm => gm.id == round.gameId) = some game
          ∧ ¬ round.roundNumber > game.currentRound
          ∧ guessAuthError db uid game = none
          ∧ ∃ newGuess : Guess,
              newGuess.gameRoundId = req.gameRoundId ∧ newGuess.userId = uid
              ∧ (submitGuess db session req freshId).2
                  = { db with guesses := db.guesses ++ [newGuess] }) := by
  unfold submitGuess
  split
  · cases hs
  · rename_i u'
    obtain rfl : u' = uid := Option.some.inj hs
    split
    · exact Or.inl ⟨rfl, rfl⟩
    · rename_i round heq
      split
      · exact Or.inl ⟨rfl, rfl⟩
      · rename_i game heq2
        split
        · exact Or.inl ⟨rfl, rfl⟩
        · rename_i hrel
          split
          · rename_i e heqA
            exact Or.inl ⟨guessAuthError_some_not_ok db _ game e heqA, rfl⟩
          · rename_i heqA
            split
            · exact Or.inl ⟨rfl, rfl⟩
            · rename_i heqG
              dsimp only
              rcases heqT : guessTargetLocation db round
                  (isImageGameType (some (strOr round.gameType
                    (getGameTypeFromCountry game.country)))) with _ | target
              · exact Or.inl (by simp [heqT, GuessResult.isOk])
              · simp only [heqT]
                refine Or.inr ⟨rfl, heqG, round, game, heq, heq2, hrel, heqA, ?_⟩
                refine ⟨_, rfl, rfl, rfl⟩

/-- When a guess for `(gameRoundId, userId)` already exists (and the round is
found, released, and the caller authorized), `submitGuess` answers
`alreadyGuessed` and leaves the database unchanged. -/
lemma submitGuess_alreadyGuessed (db : DB) (session : Option String) (uid : String)
    (req : GuessRequest) (freshId : Nat → String) (round : GameRound) (game : Game)
    (hs : session = some uid)
    (hfr : db.gameRounds.find? (fun r => r.id == req.gameRoundId) = some round)
    (hfg : db.games.find? (fun gm => gm.id == round.gameId) = some game)
    (hrel : ¬ round.roundNumber > game.currentRound)
    (hauth : guessAuthError db uid game = none)
    (hexists : (db.guesses.find?
        (fun gu => gu.gameRoundId == req.gameRoundId && gu.userId == uid)).isSome = true) :
    submitGuess db session req freshId = (.alreadyGuessed, db) := by
  unfold submitGuess
  split
  · cases hs
  · rename_i u'
    obtain rfl : u' = uid := Option.some.inj hs
    split
    · rename_i heq
      rw [heq] at hfr
      cases hfr
    · rename_i r0 heq
      rw [heq] at hfr
      obtain rfl : r0 = round := Option.some.inj hfr
      split
      · rename_i heq2
        rw [heq2] at hfg
        cases hfg
      · rename_i g0 heq2
        rw [heq2] at hfg
        obtain rfl : g0 = game := Option.some.inj hfg
        rw [if_neg hrel]
        split
        · rename_i e heqA
          rw [heqA] at hauth
          cases hauth
        · split
          · rfl
          · rename_i heqG
            rw [heqG] at hexists
            simp at hexists

/-- C3: per `(gameRoundId, userId)` pair at most one `Guess` is ever persisted.
A submission preserves the at-most-one invariant for every pair, and after a
successful submission a second submission for the same round by the same user is
rejected as `alreadyGuessed` without inserting a row, so the pair's count ends
at exactly one more than before the first call. -/
theorem submitGuess_at_most_one (db : DB) (session : Option String) (uid : String)
    (req req2 : GuessRequest) (freshId freshId2 : Nat → String) (rid u2 : String)
    (hs : session = some uid)
    (hsame : req2.gameRoundId = req.gameRoundId) :
    (guessCount db rid u2 ≤ 1 →
      guessCount (submitGuess db session req freshId).2 rid u2 ≤ 1)
    ∧ ((submitGuess db session req freshId).1.isOk = true →
        submitGuess (submitGuess db session req freshId).2 session req2 freshId2
            = (.alreadyGuessed, (submitGuess db session req freshId).2)
        ∧ guessCount (submitGuess db session req freshId).2 req.gameRoundId uid
            = guessCount db req.gameRoundId uid + 1) := by
  rcases submitGuess_cases db session uid req freshId hs with ⟨hok, hdb⟩ |
    ⟨hok, hnone, round, game, hfr, hfg, hrel, hauth, g, hgr, hgu, hdb⟩
  · constructor
    · intro hle
      rw [hdb]
      exact hle
    · intro h
      rw [h] at hok
      cases hok
  · have hcount : ∀ rid2 u3, guessCount { db with guesses := db.guesses ++ [g] } rid2 u3
        = guessCount db rid2 u3
          + (if (g.gameRoundId == rid2 && g.userId == u3) = true then 1 else 0) := by
      intro rid2 u3
      unfold guessCount
      rw [List.filter_append, List.length_append]
      congr 1
      by_cases hpg : (g.gameRoundId == rid2 && g.userId == u3) = true
      · rw [if_pos hpg]
        simp [List.filter, hpg]
      · rw [if_neg hpg]
        simp only [Bool.not_eq_true] at hpg
        simp [List.filter, hpg]
    have hzero : guessCount db req.gameRoundId uid = 0 := by
      unfold guessCount
      rw [List.length_eq_zero, List.filter_eq_nil_iff]
      intro a ha
      exact List.find?_eq_none.mp hnone a ha
    have hpredg : (g.gameRoundId == req.gameRoundId && g.userId == uid) = true := by
      rw [hgr, hgu]
      simp
    constructor
    · intro hle
      rw [hdb, hcount]
      by_cases hpg : (g.gameRoundId == rid && g.userId == u2) = true
      · rw [if_pos hpg]
        rw [Bool.and_eq_true] at hpg
        have hr2 : rid = req.gameRoundId := by
          have := beq_iff_eq.mp hpg.1
          rw [← this, hgr]
        have hu2 : u2 = uid := by
          have := beq_iff_eq.mp hpg.2
          rw [← this, hgu]
        rw [hr2, hu2, hzero]
      · rw [if_neg hpg]
        omega
    · intro _
      refine ⟨?_, ?_⟩
      · rw [hdb]
        refine submitGuess_alreadyGuessed _ session uid req2 freshId2 round game hs
          (by rw [hsame]; exact hfr) hfg hrel hauth ?_
        rw [hsame]
        have hmem : g ∈ db.guesses ++ [g] :=
          List.mem_append_right _ (List.mem_singleton_self g)
        rw [List.find?_isSome]
        exact ⟨g, hmem, hpredg⟩
      · rw [hdb, hcount, if_pos hpredg]

/-- Witness database for C3: game `"g1"` with round `"r1"` released
(`currentRound = 1`). -/
def playGame : Game :=
  { id := "g1", groupId := none, userId := some "u1", mode := "solo"
    country := "switzerland", gameType := some "country:switzerland"
    locationsPerRound := 1, currentRound := 1 }

def playRound : GameRound :=
  { id := "r1", gameId := "g1", roundNumber := 1, locationIndex := 1
    locationId := "l1", locationSource := "locations", country := "switzerland"
    gameType := some "country:switzerland" }

def playDB : DB :=
  { games := [playGame], groupMembers := [], locations := [raceLoc]
    worldLocations := [], imageLocations := [], gameRounds := [playRound]
    guesses := [] }

def playReq : GuessRequest :=
  { gameRoundId := "r1", latitude := 0, longitude := 0, timeout := true }

/-- Witness for C3: two identical submissions on `playDB`. -/
theorem submitGuess_at_most_one_witness :
    (guessCount playDB "r1" "u1" ≤ 1 →
      guessCount (submitGuess playDB (some "u1") playReq (fun _ => "ga")).2 "r1" "u1" ≤ 1)
    ∧ ((submitGuess playDB (some "u1") playReq (fun _ => "ga")).1.isOk = true →
        submitGuess (submitGuess playDB (some "u1") playReq (fun _ => "ga")).2 (some "u1")
            playReq (fun _ => "gb")
            = (.alreadyGuessed, (submitGuess playDB (some "u1") playReq (fun _ => "ga")).2)
        ∧ guessCount (submitGuess playDB (some "u1") playReq (fun _ => "ga")).2
            playReq.gameRoundId "u1"
            = guessCount playDB playReq.gameRoundId "u1" + 1) :=
  submitGuess_at_most_one playDB (some "u1") "u1" playReq playReq (fun _ => "ga")
    (fun _ => "gb") "r1" "u1" rfl rfl

/-! ### C7: geodesic distance -/

/-- The code's `atan2(√a, √(1-a))` agrees with the textbook `arcsin √a` for every
real `a` (including the degenerate cases `a < 0` and `a ≥ 1`). -/
lemma jsAtan2_sqrt_eq_arcsin (a : ℝ) :
    jsAtan2 (Real.sqrt a) (Real.sqrt (1 - a)) = Real.arcsin (Real.sqrt a) := by
  by_cases ha0 : a < 0
  · have h1 : Real.sqrt a = 0 := Real.sqrt_eq_zero_of_nonpos (le_of_lt ha0)
    have h2 : 0 < Real.sqrt (1 - a) := Real.sqrt_pos.mpr (by linarith)
    rw [h1]
    unfold jsAtan2
    rw [if_pos h2, zero_div, Real.arctan_zero, Real.arcsin_zero]
  · push_neg at ha0
    by_cases ha1 : a < 1
    · have h2 : 0 < Real.sqrt (1 - a) := Real.sqrt_pos.mpr (by linarith)
      unfold jsAtan2
      rw [if_pos h2]
      have hlt1 : Real.sqrt a < 1 := by
        rw [show (1 : ℝ) = Real.sqrt 1 by rw [Real.sqrt_one]]
        exact Real.sqrt_lt_sqrt ha0 ha1
      have harc := Real.arcsin_eq_arctan
        (x := Real.sqrt a) ⟨by linarith [Real.sqrt_nonneg a], hlt1⟩
      rw [harc, Real.sq_sqrt ha0]
    · push_neg at ha1
      have h0 : Real.sqrt (1 - a) = 0 := Real.sqrt_eq_zero_of_nonpos (by linarith)
      have h1 : 1 ≤ Real.sqrt a := by
        rw [show (1 : ℝ) = Real.sqrt 1 by rw [Real.sqrt_one]]
        exact Real.sqrt_le_sqrt ha1
      unfold jsAtan2
      rw [h0]
      rw [if_neg (lt_irrefl 0), if_neg (lt_irrefl 0),
        if_pos (by linarith : (0 : ℝ) < Real.sqrt a), Real.arcsin_of_one_le h1]

/-- The code's `calculateDistance` computes exactly the spec's haversine formula. -/
lemma calculateDistance_eq_spec_aux (lat1 lon1 lat2 lon2 : ℝ) :
    calculateDistance lat1 lon1 lat2 lon2 = haversineDistanceSpec lat1 lon1 lat2 lon2 := by
  unfold calculateDistance haversineDistanceSpec
  dsimp only
  rw [show Real.sin ((lat2 - lat1) * Real.pi / 180 / 2) * Real.sin ((lat2 - lat1) * Real.pi / 180 / 2) +
      Real.cos (lat1 * Real.pi / 180) * Real.cos (lat2 * Real.pi / 180) *
        Real.sin ((lon2 - lon1) * Real.pi / 180 / 2) * Real.sin ((lon2 - lon1) * Real.pi / 180 / 2)
      = Real.sin ((lat2 - lat1) * Real.pi / 180 / 2) ^ 2 +
        Real.cos (lat1 * Real.pi / 180) * Real.cos (lat2 * Real.pi / 180) *
          Real.sin ((lon2 - lon1) * Real.pi / 180 / 2) ^ 2 by ring]
  rw [jsAtan2_sqrt_eq_arcsin]

/-- Numeric enclosure for `Real.sin` on `[0,1]` from the degree-3 Taylor
polynomial with the `Real.sin_bound` remainder. -/
lemma sin_num_bounds {x l u sl su : ℝ} (hl : l ≤ x) (hu : x ≤ u) (h0 : 0 ≤ l) (h1 : u ≤ 1)
    (hsl : sl ≤ l - u ^ 3 / 6 - u ^ 4 * (5 / 96))
    (hsu : u - l ^ 3 / 6 + u ^ 4 * (5 / 96) ≤ su) :
    sl ≤ Real.sin x ∧ Real.sin x ≤ su := by
  have hx0 : 0 ≤ x := le_trans h0 hl
  have hxabs : |x| ≤ 1 := by
    rw [abs_of_nonneg hx0]
    linarith
  have hb := Real.sin_bound hxabs
  rw [abs_le] at hb
  have habs : |x| = x := abs_of_nonneg hx0
  rw [habs] at hb
  have hx4 : x ^ 4 ≤ u ^ 4 := pow_le_pow_left₀ hx0 hu 4
  have hx3u : x ^ 3 ≤ u ^ 3 := pow_le_pow_left₀ hx0 hu 3
  have hx3l : l ^ 3 ≤ x ^ 3 := pow_le_pow_left₀ h0 hl 3
  constructor
  · nlinarith [hb.1]
  · nlinarith [hb.2]

/-- Numeric enclosure for `Real.cos` on `[0,1]` from the degree-2 Taylor
polynomial with the `Real.cos_bound` remainder. -/
lemma cos_num_bounds {x l u cl cu : ℝ} (hl : l ≤ x) (hu : x ≤ u) (h0 : 0 ≤ l) (h1 : u ≤ 1)
    (hcl : cl ≤ 1 - u ^ 2 / 2 - u ^ 4 * (5 / 96))
    (hcu : 1 - l ^ 2 / 2 + u ^ 4 * (5 / 96) ≤ cu) :
    cl ≤ Real.cos x ∧ Real.cos x ≤ cu := by
  have hx0 : 0 ≤ x := le_trans h0 hl
  have hxabs : |x| ≤ 1 := by
    rw [abs_of_nonneg hx0]
    linarith
  have hb := Real.cos_bound hxabs
  rw [abs_le] at hb
  have habs : |x| = x := abs_of_nonneg hx0
  rw [habs] at hb
  have hx4 : x ^ 4 ≤ u ^ 4 := pow_le_pow_left₀ hx0 hu 4
  have hx2u : x ^ 2 ≤ u ^ 2 := pow_le_pow_left₀ hx0 hu 2
  have hx2l : l ^ 2 ≤ x ^ 2 := pow_le_pow_left₀ h0 hl 2
  constructor
  · nlinarith [hb.1]
  · nlinarith [hb.2]

/-- Quarter-angle form of the cosine: `cos 4x` through `sin x` and `cos x`. -/
lemma cos_four_mul (x : ℝ) :
    Real.cos (4 * x) = 1 - 2 * (2 * Real.sin x * Real.cos x) ^ 2 := by
  have h1 : (4 : ℝ) * x = 2 * (2 * x) := by ring
  rw [h1, Real.cos_two_mul']
  have h2 := Real.sin_sq_add_cos_sq (2 * x)
  rw [Real.sin_two_mul] at h2 ⊢
  linarith [h2]

lemma self_le_arcsin {x : ℝ} (h0 : 0 ≤ x) (h1 : x ≤ 1) : x ≤ Real.arcsin x := by
  rcases eq_or_lt_of_le h0 with he | hx
  · rw [← he, Real.arcsin_zero]
  · have hpos : 0 < Real.arcsin x := Real.arcsin_pos.mpr hx
    have hsin : Real.sin (Real.arcsin x) = x := Real.sin_arcsin (by linarith) h1
    have hlt := Real.sin_lt hpos
    rw [hsin] at hlt
    linarith

lemma arcsin_le_of_le_sin {x θ : ℝ} (hθ1 : -(Real.pi / 2) ≤ θ) (hθ2 : θ ≤ Real.pi / 2)
    (hsin : x ≤ Real.sin θ) : Real.arcsin x ≤ θ := by
  have := Real.monotone_arcsin hsin
  rwa [Real.arcsin_sin hθ1 hθ2] at this

/-- Interval square for nonnegative enclosures. -/
lemma sq_interval {y l u : ℝ} (hl : l ≤ y) (hu : y ≤ u) (h0 : 0 ≤ l) :
    l ^ 2 ≤ y ^ 2 ∧ y ^ 2 ≤ u ^ 2 :=
  ⟨pow_le_pow_left₀ h0 hl 2, pow_le_pow_left₀ (le_trans h0 hl) hu 2⟩

/-- Interval product for nonnegative enclosures. -/
lemma mul_interval {x y a b c d : ℝ} (hxa : a ≤ x) (hxb : x ≤ b) (hyc : c ≤ y)
    (hyd : y ≤ d) (ha : 0 ≤ a) (hc : 0 ≤ c) :
    a * c ≤ x * y ∧ x * y ≤ b * d := by
  constructor
  · exact mul_le_mul hxa hyc hc (le_trans ha hxa)
  · exact mul_le_mul hxb hyd (le_trans hc hyc) (by linarith)

set_option maxHeartbeats 2000000 in
/-- The distance the code computes between Bern (46.9480, 7.4474) and Zürich
(47.3769, 8.5417) is exactly 95.5 km. -/
lemma bern_zurich_eq : haversineDistanceSpec 46.9480 7.4474 47.3769 8.5417 = 95.5 := by
  have hp1 : (3.141592 : ℝ) < Real.pi := Real.pi_gt_d6
  have hp2 : Real.pi < 3.141593 := Real.pi_lt_d6
  -- enclosures of the four angles involved
  have hθA1 : (0.20484925 : ℝ) ≤ 46.9480 * Real.pi / 720 := by linarith
  have hθA2 : 46.9480 * Real.pi / 720 ≤ 0.20484932 := by linarith
  have hθB1 : (0.20672068 : ℝ) ≤ 47.3769 * Real.pi / 720 := by linarith
  have hθB2 : 47.3769 * Real.pi / 720 ≤ 0.20672075 := by linarith
  have hL1 : (0.00374285780 : ℝ) ≤ (47.3769 - 46.9480) * Real.pi / 180 / 2 := by linarith
  have hL2 : (47.3769 - 46.9480) * Real.pi / 180 / 2 ≤ 0.00374285900 := by linarith
  have hN1 : (0.00954956701 : ℝ) ≤ (8.5417 - 7.4474) * Real.pi / 180 / 2 := by linarith
  have hN2 : (8.5417 - 7.4474) * Real.pi / 180 / 2 ≤ 0.00954957006 := by linarith
  -- sine and cosine of the quarter latitudes
  have hsA : (0.20332484 : ℝ) ≤ Real.sin (46.9480 * Real.pi / 720)
      ∧ Real.sin (46.9480 * Real.pi / 720) ≤ 0.20350835 :=
    sin_num_bounds hθA1 hθA2 (by norm_num) (by norm_num) (by norm_num) (by norm_num)
  have hcA : (0.97892666 : ℝ) ≤ Real.cos (46.9480 * Real.pi / 720)
      ∧ Real.cos (46.9480 * Real.pi / 720) ≤ 0.97911011 :=
    cos_num_bounds hθA1 hθA2 (by norm_num) (by norm_num) (by norm_num) (by norm_num)
  have hsB : (0.20515325 : ℝ) ≤ Real.sin (47.3769 * Real.pi / 720)
      ∧ Real.sin (47.3769 * Real.pi / 720) ≤ 0.20534355 :=
    sin_num_bounds hθB1 hθB2 (by norm_num) (by norm_num) (by norm_num) (by norm_num)
  have hcB : (0.97853815 : ℝ) ≤ Real.cos (47.3769 * Real.pi / 720)
      ∧ Real.cos (47.3769 * Real.pi / 720) ≤ 0.97872840 :=
    cos_num_bounds hθB1 hθB2 (by norm_num) (by norm_num) (by norm_num) (by norm_num)
  -- the two tiny half-angle sines
  have hsL : (0.0037428489 : ℝ) ≤ Real.sin ((47.3769 - 46.9480) * Real.pi / 180 / 2)
      ∧ Real.sin ((47.3769 - 46.9480) * Real.pi / 180 / 2) ≤ 0.0037428504 :=
    sin_num_bounds hL1 hL2 (by norm_num) (by norm_num) (by norm_num) (by norm_num)
  have hsN : (0.0095494213 : ℝ) ≤ Real.sin ((8.5417 - 7.4474) * Real.pi / 180 / 2)
      ∧ Real.sin ((8.5417 - 7.4474) * Real.pi / 180 / 2) ≤ 0.0095494255 :=
    sin_num_bounds hN1 hN2 (by norm_num) (by norm_num) (by norm_num) (by norm_num)
  -- the half-latitude sines via the double angle
  have hprodA := mul_interval hsA.1 hsA.2 hcA.1 hcA.2 (by norm_num) (by norm_num)
  have hA2 : (0.39808021 : ℝ)
        ≤ 2 * Real.sin (46.9480 * Real.pi / 720) * Real.cos (46.9480 * Real.pi / 720)
      ∧ 2 * Real.sin (46.9480 * Real.pi / 720) * Real.cos (46.9480 * Real.pi / 720)
        ≤ 0.39851417 :=
    ⟨by linarith [hprodA.1], by linarith [hprodA.2]⟩
  have hprodB := mul_interval hsB.1 hsB.2 hcB.1 hcB.2 (by norm_num) (by norm_num)
  have hB2 : (0.40150055 : ℝ)
        ≤ 2 * Real.sin (47.3769 * Real.pi / 720) * Real.cos (47.3769 * Real.pi / 720)
      ∧ 2 * Real.sin (47.3769 * Real.pi / 720) * Real.cos (47.3769 * Real.pi / 720)
        ≤ 0.40195114 :=
    ⟨by linarith [hprodB.1], by linarith [hprodB.2]⟩
  -- the latitude cosines via the quarter angle
  have hsqA := sq_interval hA2.1 hA2.2 (by norm_num)
  have hcosA : (0.68237291 : ℝ) ≤ Real.cos (46.9480 * Real.pi / 180)
      ∧ Real.cos (46.9480 * Real.pi / 180) ≤ 0.68306442 := by
    rw [show (46.9480 : ℝ) * Real.pi / 180 = 4 * (46.9480 * Real.pi / 720) by ring,
      cos_four_mul]
    exact ⟨by linarith [hsqA.2], by linarith [hsqA.1]⟩
  have hsqB := sq_interval hB2.1 hB2.2 (by norm_num)
  have hcosB : (0.67686957 : ℝ) ≤ Real.cos (47.3769 * Real.pi / 180)
      ∧ Real.cos (47.3769 * Real.pi / 180) ≤ 0.67759470 := by
    rw [show (47.3769 : ℝ) * Real.pi / 180 = 4 * (47.3769 * Real.pi / 720) by ring,
      cos_four_mul]
    exact ⟨by linarith [hsqB.2], by linarith [hsqB.1]⟩
  -- the haversine sum
  have hP := mul_interval hcosA.1 hcosA.2 hcosB.1 hcosB.2 (by norm_num) (by norm_num)
  have hsL2 := sq_interval hsL.1 hsL.2 (by norm_num)
  have hsN2 := sq_interval hsN.1 hsN.2 (by norm_num)
  have hPN := mul_interval hP.1 hP.2 hsN2.1 hsN2.2 (by norm_num) (by norm_num)
  set A : ℝ := Real.sin ((47.3769 - 46.9480) * Real.pi / 180 / 2) ^ 2 +
      Real.cos (46.9480 * Real.pi / 180) * Real.cos (47.3769 * Real.pi / 180) *
        Real.sin ((8.5417 - 7.4474) * Real.pi / 180 / 2) ^ 2 with hAdef
  have hA : (0.0000561280 : ℝ) ≤ A ∧ A ≤ 0.0000562165 := by
    rw [hAdef]
    constructor
    · nlinarith [hsL2.1, hPN.1]
    · nlinarith [hsL2.2, hPN.2]
  -- square root bounds
  have hsqrt1 : (0.00749186 : ℝ) ≤ Real.sqrt A := by
    rw [show (0.00749186 : ℝ) = Real.sqrt (0.00749186 ^ 2) from
      (Real.sqrt_sq (by norm_num)).symm]
    exact Real.sqrt_le_sqrt (by nlinarith [hA.1])
  have hsqrt2 : Real.sqrt A ≤ 0.00749777 := by
    rw [show (0.00749777 : ℝ) = Real.sqrt (0.00749777 ^ 2) from
      (Real.sqrt_sq (by norm_num)).symm]
    exact Real.sqrt_le_sqrt (by nlinarith [hA.2])
  -- arcsin bounds
  have harc1 : (0.00749186 : ℝ) ≤ Real.arcsin (Real.sqrt A) :=
    le_trans hsqrt1 (self_le_arcsin (Real.sqrt_nonneg A) (by linarith))
  have harc2 : Real.arcsin (Real.sqrt A) ≤ 0.0074979 := by
    have hsinθ : (0.0074978 : ℝ) ≤ Real.sin 0.0074979 ∧ Real.sin 0.0074979 ≤ 0.0074980 :=
      sin_num_bounds (le_refl (0.0074979 : ℝ)) (le_refl (0.0074979 : ℝ))
        (by norm_num) (by norm_num) (by norm_num) (by norm_num)
    exact arcsin_le_of_le_sin (by linarith) (by linarith) (by linarith [hsinθ.1])
  -- final rounding
  unfold haversineDistanceSpec
  dsimp only
  rw [← hAdef]
  have hfloor : jsRound (6371 * (2 * Real.arcsin (Real.sqrt A)) * 10) = 955 := by
    unfold jsRound
    rw [Int.floor_eq_iff]
    constructor
    · push_cast
      linarith
    · push_cast
      linarith
  rw [hfloor]
  norm_num

/-- C7 (counterexample): the Bern–Zürich distance computed by the code is
95.5 km, which is not within 0.5 km of the claimed 96.7 km. -/
theorem calculateDistance_bern_zurich_not_96_7 :
    ¬ |calculateDistance 46.9480 7.4474 47.3769 8.5417 - 96.7| ≤ 0.5 := by
  rw [calculateDistance_eq_spec_aux, bern_zurich_eq]
  intro h
  rw [abs_le] at h
  norm_num at h

/-- C7 (amended): `calculateDistance` equals the haversine great-circle distance
with Earth radius 6371 km rounded to 1 decimal place, for all inputs; the
distance between Bern (46.9480, 7.4474) and Zürich (47.3769, 8.5417) is exactly
95.5 km — within 0.5 km of 95.5 km, not of the spec's 96.7 km. -/
theorem calculateDistance_haversine (lat1 lon1 lat2 lon2 : ℝ) :
    calculateDistance lat1 lon1 lat2 lon2 = haversineDistanceSpec lat1 lon1 lat2 lon2
    ∧ calculateDistance 46.9480 7.4474 47.3769 8.5417 = 95.5
    ∧ |calculateDistance 46.9480 7.4474 47.3769 8.5417 - 95.5| ≤ 0.5 := by
  refine ⟨calculateDistance_eq_spec_aux lat1 lon1 lat2 lon2, ?_, ?_⟩
  · rw [calculateDistance_eq_spec_aux, bern_zurich_eq]
  · rw [calculateDistance_eq_spec_aux, bern_zurich_eq]
    norm_num

end Guesser
